import Mathlib

/-!
Shallow embedding of the economics_agent repository's ingestion,
vector-retrieval and conversation-memory subsystems, together with proofs
settling the specification's claims about them.

Conventions of the embedding:
* Python lists become `List`, dicts with a fixed shape become structures,
  `None`-able values become `Option`.
* Raised exceptions become `Except` error values; a function that both
  mutates durable state and may raise returns the post-state paired with
  an `Except` result (Python state mutations performed before a raise
  persist, and the model keeps them).
* External collaborators (the system clock, UUID generation, content
  readers, the embedding model and the FAISS index library) are passed in
  as explicit parameters or, where a claim depends on the collaborator's
  own documented behaviour, modelled from the specification's contract for
  them; such definitions say so in their doc comment.
-/

/-! ## Conversation memory (src/src/models/memory.py) -/

/-- `MemoryItem` (memory.py, lines 8-13): one record of the conversation
log, with `query`, `response`, an ISO `timestamp` string and optional
`metadata`.  The metadata dict is modelled as an association list of
string pairs. -/
structure MemoryItem where
  query : String
  response : String
  timestamp : String
  metadata : Option (List (String × String))
deriving Repr, DecidableEq

/-- `AgentMemory.add_interaction` (memory.py, lines 54-73), restricted to
the `history` list (the LangChain chat buffer is an external collaborator
and carries no timestamps or metadata).  The current wall-clock time is the
explicit parameter `now`; the new record is appended at the end. -/
def add_interaction (history : List MemoryItem) (query response : String)
    (metadata : Option (List (String × String))) (now : String) : List MemoryItem :=
  history ++ [⟨query, response, now, metadata⟩]

/-- `AgentMemory.clear` (memory.py, lines 79-82), restricted to `history`:
the log becomes empty. -/
def AgentMemory.clear (_history : List MemoryItem) : List MemoryItem := []

/-- `AgentMemory.save_to_file` (memory.py, lines 84-88): serializes
`[item.dict() for item in self.history]` as JSON.  All fields are strings
(or a string dict), so the JSON round-trip is the identity on the records;
the file's deserialized content is therefore the history list itself. -/
def save_to_file (history : List MemoryItem) : List MemoryItem := history

/-- The per-item loop of `AgentMemory.load_from_file` (memory.py, lines
101-104): each deserialized item is re-added through `add_interaction`,
which stamps the current time — `clock i` for the i-th iteration — instead
of the item's stored `timestamp`. -/
def loadItemsLoop (clock : Nat → String) (history : List MemoryItem) (i : Nat) :
    List MemoryItem → List MemoryItem
  | [] => history
  | it :: rest =>
      loadItemsLoop clock (add_interaction history it.query it.response it.metadata (clock i))
        (i + 1) rest

/-- Errors raised by the memory persistence code. `open(file_path, 'r')` on
an absent path raises `FileNotFoundError`. -/
inductive MemFileError
  | fileNotFound
deriving Repr, DecidableEq

/-- `AgentMemory.load_from_file` (memory.py, lines 90-104).  `file` is the
(deserialized) content of the source path, `none` when the path does not
exist.  The method first runs `self.clear()`, then opens the file — so an
absent path raises with the history already erased — and on success re-adds
every item through `add_interaction`.  Returns the new history and the
call's outcome. -/
def load_from_file (clock : Nat → String) (file : Option (List MemoryItem))
    (_history : List MemoryItem) : List MemoryItem × Except MemFileError Unit :=
  -- self.clear() runs unconditionally before the open
  match file with
  | none => (AgentMemory.clear _history, .error .fileNotFound)
  | some items => (loadItemsLoop clock (AgentMemory.clear _history) 0 items, .ok ())

/-- Python's `xs[s:]` slice on a list, for an arbitrary (possibly negative)
integer start `s`: a negative start counts from the end, clamped at the
front; a non-negative start is clamped at the back. -/
def pySliceFrom (s : Int) (xs : List MemoryItem) : List MemoryItem :=
  if s < 0 then xs.drop (xs.length - min xs.length s.natAbs)
  else xs.drop (min s.toNat xs.length)

/-- `AgentMemory.get_relevant_history` (memory.py, lines 106-113): returns
`self.history[-k:]` (the query argument is unused by the implementation). -/
def get_relevant_history (history : List MemoryItem) (k : Int) : List MemoryItem :=
  pySliceFrom (-k) history

/-! ## Vector tools (src/src/tools/vector_tools.py) -/

/-- A LangChain `Document`: the chunk text plus its metadata (an
association list of string pairs). -/
structure Document where
  page_content : String
  metadata : List (String × String)
deriving Repr, DecidableEq

/-- The repository's configured chunk size
(`RecursiveCharacterTextSplitter(chunk_size=1000, ...)`,
vector_tools.py lines 17-21). -/
def VectorHandler.chunk_size : Nat := 1000

/-- The repository's configured chunk overlap (`chunk_overlap=200`,
vector_tools.py lines 17-21). -/
def VectorHandler.chunk_overlap : Nat := 200

/-- Fuel-indexed worker for the Chunker: emit windows of `size`
characters, advancing by `step = size - overlap` characters, until the
remaining text fits in one window.  The fuel (the text length) bounds the
recursion; with a positive `step` it is never exhausted. -/
def chunkLoop (size step : Nat) : Nat → String → List String
  | 0, s => [s]
  | fuel + 1, s =>
      if s.length ≤ size then [s]
      else s.take size :: chunkLoop size step fuel (s.drop step)

/-- Modelled from the spec: the Chunker.  The repository delegates
splitting to langchain's `RecursiveCharacterTextSplitter` (configured in
`VectorHandler.__init__`, vector_tools.py lines 17-21), whose algorithm is
external library code not present in this repository.  Per the spec's
Chunker contract (§4.1): length-based splitting over the characters of the
text, consecutive chunks overlapping by `overlap` characters, and a text
shorter than `chunk_size` yields exactly one chunk equal to the whole
text. -/
def Chunker.split (chunk_size overlap : Nat) (text : String) : List String :=
  chunkLoop chunk_size (chunk_size - overlap) text.length text

/-- Modelled from the spec: the external FAISS index library's
`similarity_search_with_score(query, k)` call (delegated to on
vector_tools.py line 52).  For a given query the library ranks the stored
documents nearest-first by its own metric; `ranked` is that ordering of
the stored documents with their scores (scores modelled as integers, the
metric itself being external).  The library returns the first `k` of
them, clamped to the number of documents present; a non-positive `k`
yields no results. -/
def faissSearchWithScore (ranked : List (Document × Int)) (k : Int) :
    List (Document × Int) :=
  ranked.take (min k.toNat ranked.length)

/-- `VectorHandler.similarity_search` (vector_tools.py, lines 48-53):
delegates to the index's `similarity_search_with_score` and projects each
result to `(doc.page_content, score)`.  No validation of `k` is performed
and the function has no error path of its own. -/
def VectorHandler.similarity_search (_query : String) (ranked : List (Document × Int))
    (k : Int) : List (String × Int) :=
  (faissSearchWithScore ranked k).map (fun p => (p.1.page_content, p.2))

/-- Errors raised by the vector-store plumbing: `load_vector_store`
raises `ValueError` when the directory does not exist
(vector_tools.py, lines 44-45). -/
inductive VectorStoreError
  | directoryNotFound
deriving Repr, DecidableEq

/-- `VectorHandler.load_vector_store` (vector_tools.py, lines 40-46):
`store` is the persisted index found at the directory (`none` when the
directory does not exist, in which case `ValueError` is raised). -/
def load_vector_store (store : Option (List (Document × Int))) :
    Except VectorStoreError (List (Document × Int)) :=
  match store with
  | none => .error .directoryNotFound
  | some ranked => .ok ranked

/-- `search_in_vectors` (vector_tools.py, lines 73-79): loads the store
from its directory, then runs `similarity_search` with the given `k`.
There is no validation of `k` anywhere on this path. -/
def search_in_vectors (query : String) (store : Option (List (Document × Int)))
    (k : Int) : Except VectorStoreError (List (String × Int)) :=
  (load_vector_store store).map (fun ranked => VectorHandler.similarity_search query ranked k)

/-! ## Data ingestion (src/src/models/ingestion.py) -/

/-- The result of `DataIngestion._process_file` (ingestion.py, lines
161-181): `txt` gives a string, `pdf` a string or list of page strings,
`csv`/`json` give structured (non-string) data. -/
inductive Content
  | text (s : String)
  | textList (l : List String)
  | structured
deriving Repr, DecidableEq

/-- The `isinstance` test on ingestion.py line 86:
`isinstance(content, str) or (isinstance(content, list) and
all(isinstance(item, str) for item in content))`. -/
def Content.isTextual : Content → Bool
  | .text _ => true
  | .textList _ => true
  | .structured => false

/-- Line 87: `texts = content if isinstance(content, list) else [content]`. -/
def Content.texts : Content → List String
  | .text s => [s]
  | .textList l => l
  | .structured => []

/-- `SUPPORTED_FILE_TYPES` (config.py, lines 42-47): its keys. -/
def SUPPORTED_FILE_TYPES : List String := ["csv", "pdf", "txt", "json"]

/-- `RAW_DATA_DIR` (config.py line 12). -/
def RAW_DATA_DIR : String := "src/data/raw"

/-- `PROCESSED_DATA_DIR` (config.py line 13). -/
def PROCESSED_DATA_DIR : String := "src/data/processed"

/-- `VECTORS_DIR` (config.py line 14). -/
def VECTORS_DIR : String := "src/data/vectors"

/-- The metadata dict built by `DataIngestion.ingest_file` (ingestion.py,
lines 67-76).  `vector_dir` models the key added on line 102, absent
(`none`) until that line runs. -/
structure FileMeta where
  file_id : String
  original_file_name : String
  original_file_path : String
  raw_file_path : String
  processed_file_path : String
  file_type : String
  ingestion_timestamp : String
  size_bytes : Nat
  vector_dir : Option String
deriving Repr, DecidableEq

/-- The metadata dict built by `DataIngestion.ingest_text` (ingestion.py,
lines 129-137).  `vector_dir` models the key added on line 157. -/
structure TextMeta where
  text_id : String
  source_name : String
  raw_file_path : String
  processed_file_path : String
  file_type : String
  ingestion_timestamp : String
  size_bytes : Nat
  vector_dir : Option String
deriving Repr, DecidableEq

/-- A catalog metadata record: either shape may appear in
`PROCESSED_DATA_DIR`. -/
inductive CatalogMeta
  | file (m : FileMeta)
  | text (m : TextMeta)
deriving Repr, DecidableEq

/-- The `vector_dir` key of either metadata shape. -/
def CatalogMeta.vector_dir : CatalogMeta → Option String
  | .file m => m.vector_dir
  | .text m => m.vector_dir

/-- One file in `PROCESSED_DATA_DIR`: the JSON written by
`save_json_file(processed_data, ...)`, holding `{metadata, content}`.  The
snapshot of the metadata dict at the moment of the write is stored (later
in-memory mutations of the dict do not reach the file). -/
structure ProcessedRecord where
  metadata : CatalogMeta
  content : Content
deriving Repr, DecidableEq

/-- The durable state touched by `DataIngestion`: the raw copies, the
processed records, and the persisted vector-store directories. -/
structure IngestState where
  raw : List String
  processed : List ProcessedRecord
  vectors : List String
deriving Repr, DecidableEq

/-- The empty durable state. -/
def emptyIngestState : IngestState := ⟨[], [], []⟩

/-- Exceptions raised by `DataIngestion.ingest_file` / `ingest_text`. -/
inductive IngestError
  | fileNotFoundError (path : String)
  | valueError (file_type : String)
  | embeddingError
  | typeErrorMissingDirectory
deriving Repr, DecidableEq

/-- File-type resolution (ingestion.py, lines 40-45): when no type is
declared, the lowercased extension must be a supported type, else
`ValueError`. -/
def resolveFileType (ext : String) : Option String → Except IngestError String
  | none =>
      if ext ∈ SUPPORTED_FILE_TYPES then .ok ext
      else .error (.valueError ext)
  | some t => .ok t

/-- `DataIngestion.ingest_file` (ingestion.py, lines 26-104).  External
collaborators are explicit parameters: `exists_` is
`os.path.exists(file_path)`; `file_name` is `os.path.basename(file_path)`
and `ext` the lowercased extension without its dot; `uuid` the generated
id, `now` the timestamp, `size` the byte size; `content` is the (successful)
result of `_process_file`; `embedOk` says whether the external embedding
model succeeds inside `vectorize_texts`.  State writes performed before a
raise persist in the returned state.  On the textual branch, after
`vectorize_texts` the code calls `self.vector_handler.save_vector_store(vector_dir)`
with a single positional argument, but `save_vector_store(self, vector_store,
directory)` requires two, so Python raises `TypeError` before anything
further runs; line 102 (`metadata["vector_dir"] = vector_dir`) is
unreachable in this branch. -/
def ingest_file (st : IngestState) (exists_ : Bool) (file_path file_name ext : String)
    (declared_type : Option String) (uuid now : String) (size : Nat)
    (content : Content) (embedOk : Bool) : IngestState × Except IngestError FileMeta :=
  if exists_ = false then
    (st, .error (.fileNotFoundError file_path))
  else
    match resolveFileType ext declared_type with
    | .error e => (st, .error e)
    | .ok ft =>
      if ft ∉ SUPPORTED_FILE_TYPES then
        (st, .error (.valueError ft))
      else
        -- shutil.copy2 to RAW_DATA_DIR (line 60)
        let raw_file_path := RAW_DATA_DIR ++ "/" ++ uuid ++ "_" ++ file_name
        let st1 : IngestState := { st with raw := st.raw ++ [raw_file_path] }
        let processed_file_path := PROCESSED_DATA_DIR ++ "/" ++ uuid ++ ".json"
        let metadata : FileMeta :=
          { file_id := uuid
            original_file_name := file_name
            original_file_path := file_path
            raw_file_path := raw_file_path
            processed_file_path := processed_file_path
            file_type := ft
            ingestion_timestamp := now
            size_bytes := size
            vector_dir := none }
        -- save_json_file writes {metadata, content} (line 83), with the
        -- metadata as of this point: no vector_dir key yet
        let st2 : IngestState :=
          { st1 with processed := st1.processed ++ [⟨.file metadata, content⟩] }
        if content.isTextual then
          if embedOk = false then
            -- vectorize_texts raises; ingest_file has no try/except
            (st2, .error .embeddingError)
          else
            -- save_vector_store(vector_dir): missing positional argument
            (st2, .error .typeErrorMissingDirectory)
        else
          (st2, .ok metadata)

/-- `DataIngestion.ingest_text` (ingestion.py, lines 106-159).  `uuid`,
`now` and `ts` (the `%Y%m%d_%H%M%S` stamp) are the external clock/id
inputs; `embedOk` says whether the external embedding model succeeds.
`save_json_file` writes the `{metadata, content}` record *before* line 157
adds `vector_dir` to the in-memory dict, so the persisted record never
carries the key.  Here `save_vector_store(vector_store, vector_dir)` is
called with both arguments, so on embedding success the store is written
and the metadata (with `vector_dir`) is returned. -/
def ingest_text (st : IngestState) (text source_name : String)
    (uuid now ts : String) (embedOk : Bool) : IngestState × Except IngestError TextMeta :=
  let file_name := source_name ++ "_" ++ ts ++ ".txt"
  let raw_file_path := RAW_DATA_DIR ++ "/" ++ file_name
  let st1 : IngestState := { st with raw := st.raw ++ [raw_file_path] }
  let processed_file_path := PROCESSED_DATA_DIR ++ "/" ++ uuid ++ ".json"
  let metadata : TextMeta :=
    { text_id := uuid
      source_name := source_name
      raw_file_path := raw_file_path
      processed_file_path := processed_file_path
      file_type := "text"
      ingestion_timestamp := now
      size_bytes := text.utf8ByteSize
      vector_dir := none }
  let st2 : IngestState :=
    { st1 with processed := st1.processed ++ [⟨.text metadata, .text text⟩] }
  let vector_dir := VECTORS_DIR ++ "/" ++ uuid
  if embedOk = false then
    (st2, .error .embeddingError)
  else
    let st3 : IngestState := { st2 with vectors := st2.vectors ++ [vector_dir] }
    (st3, .ok { metadata with vector_dir := some vector_dir })

/-- `DataIngestion.list_ingested_files` (ingestion.py, lines 183-200):
reads every record in `PROCESSED_DATA_DIR` and collects its `metadata`
(records in the modelled state are well-formed, so the malformed-record
skip never fires). -/
def list_ingested_files (st : IngestState) : List CatalogMeta :=
  st.processed.map (·.metadata)

/-! ## Sample values for witnesses and counterexamples -/

/-- Sample records used by concrete witnesses and counterexamples. -/
def mrec1 : MemoryItem := ⟨"que es la inflacion", "subida general de precios", "2024-01-01T10:00:00", none⟩

/-- A second sample record. -/
def mrec2 : MemoryItem := ⟨"y el PIB", "producto interno bruto", "2024-01-01T10:05:00", some [("topic", "macro")]⟩

/-- A third sample record. -/
def mrec3 : MemoryItem := ⟨"gracias", "de nada", "2024-01-01T10:06:00", none⟩

/-- A sample stored document. -/
def doc1 : Document := ⟨"apple pie", [("file_id", "f1"), ("chunk_index", "0")]⟩

/-- A second sample stored document. -/
def doc2 : Document := ⟨"apple juice", [("file_id", "f1"), ("chunk_index", "1")]⟩

/-! ### Lemmas about the memory embedding -/

/-- Unfolding the load loop: it appends the transformed items, stamping
consecutive clock ticks from `i`. -/
theorem loadItemsLoop_eq (clock : Nat → String) :
    ∀ (items history : List MemoryItem) (i : Nat),
      loadItemsLoop clock history i items =
        history ++ (items.enumFrom i).map
          (fun p => ⟨p.2.query, p.2.response, clock p.1, p.2.metadata⟩) := by
  intro items
  induction items with
  | nil => intro history i; simp [loadItemsLoop]
  | cons it rest ih =>
      intro history i
      rw [loadItemsLoop, ih]
      simp [add_interaction, List.enumFrom]

/-- C1 fails as stated: saving one record timestamped
"2024-01-01T10:00:00" and loading it back when the clock reads
"2024-06-02T00:00:00" does not reproduce the same record — `load_from_file`
re-stamps each record with the load-time clock instead of the stored
timestamp. -/
theorem C1_counterexample :
    (load_from_file (fun _ => "2024-06-02T00:00:00") (some (save_to_file [mrec1])) [mrec1]).1
      ≠ [mrec1] := by
  decide

/-- C1 (amended): `save(destination)` then `load(destination)` reproduces
the same sequence of records in the same order with identical query,
response and metadata, but every timestamp is replaced by the load-time
clock value (record i receives `clock i`), not the saved timestamp. -/
theorem C1_save_load_roundtrip (clock : Nat → String) (history prior : List MemoryItem) :
    (load_from_file clock (some (save_to_file history)) prior).1.map
        (fun it => (it.query, it.response, it.metadata))
      = history.map (fun it => (it.query, it.response, it.metadata))
    ∧ (load_from_file clock (some (save_to_file history)) prior).1.map MemoryItem.timestamp
      = (List.range history.length).map clock := by
  have key : (load_from_file clock (some (save_to_file history)) prior).1
      = (history.enumFrom 0).map
          (fun p => ⟨p.2.query, p.2.response, clock p.1, p.2.metadata⟩) := by
    simp [load_from_file, save_to_file, AgentMemory.clear, loadItemsLoop_eq]
  refine ⟨?_, ?_⟩
  · rw [key, List.map_map,
      show ((fun it : MemoryItem => (it.query, it.response, it.metadata)) ∘
          (fun p : Nat × MemoryItem =>
            (⟨p.2.query, p.2.response, clock p.1, p.2.metadata⟩ : MemoryItem)))
        = (fun it : MemoryItem => (it.query, it.response, it.metadata)) ∘ Prod.snd from rfl,
      ← List.map_map, List.enumFrom_map_snd]
  · rw [key, List.map_map,
      show (MemoryItem.timestamp ∘
          (fun p : Nat × MemoryItem =>
            (⟨p.2.query, p.2.response, clock p.1, p.2.metadata⟩ : MemoryItem)))
        = clock ∘ Prod.fst from rfl,
      ← List.map_map, List.enumFrom_map_fst, List.range_eq_range']

/-- C9 fails as stated at `k = 0`: `history[-0:]` is `history[0:]`, the
whole log, whereas the last 0 records would be the empty sequence. -/
theorem C9_counterexample :
    get_relevant_history [mrec1] 0 = [mrec1] ∧ [mrec1] ≠ ([] : List MemoryItem) := by
  constructor
  · decide
  · decide

/-- C9 (amended): for every `k ≥ 1`, `get_relevant_history` returns a
suffix of the log — the last `min k n` records in insertion
(chronological) order — of length `k`, or the whole log when fewer than
`k` records exist. -/
theorem C9_recent_last_k (history : List MemoryItem) (k : Int) (hk : 1 ≤ k) :
    List.IsSuffix (get_relevant_history history k) history
    ∧ (get_relevant_history history k).length = min k.toNat history.length := by
  have hneg : (-k) < 0 := by omega
  have hres : get_relevant_history history k
      = history.drop (history.length - min history.length k.natAbs) := by
    simp [get_relevant_history, pySliceFrom, hneg]
  constructor
  · rw [hres]; exact List.drop_suffix _ _
  · rw [hres, List.length_drop]
    have h1 : k.natAbs = k.toNat := by omega
    rw [h1]
    omega

/-- Witness for C9 (amended) at `k = 2` on a three-record log. -/
theorem C9_recent_last_k_witness :
    (1 : Int) ≤ 2
    ∧ (List.IsSuffix (get_relevant_history [mrec1, mrec2, mrec3] 2) [mrec1, mrec2, mrec3]
      ∧ (get_relevant_history [mrec1, mrec2, mrec3] 2).length
          = min (2 : Int).toNat [mrec1, mrec2, mrec3].length) :=
  ⟨by decide, C9_recent_last_k [mrec1, mrec2, mrec3] 2 (by decide)⟩

/-- C10: `load_from_file` runs `self.clear()` before opening the source,
so loading from an absent path raises `FileNotFoundError` with the
in-memory log already erased — the prior records are lost. -/
theorem C10_load_clears_before_open (clock : Nat → String) (history : List MemoryItem) :
    load_from_file clock none history = ([], Except.error MemFileError.fileNotFound) := by
  simp [load_from_file, AgentMemory.clear]

/-! ### Theorems about ingestion and vector search -/

/-- Any successful `ingest_file` return carries no `vector_dir` key and
can only come from non-textual content (the textual branch always
raises). -/
theorem ingest_file_ok_imp (st : IngestState) (exists_ : Bool) (fp fn ext : String)
    (dt : Option String) (uuid now : String) (size : Nat) (content : Content)
    (embedOk : Bool) (md : FileMeta)
    (h : (ingest_file st exists_ fp fn ext dt uuid now size content embedOk).2 = Except.ok md) :
    md.vector_dir = none ∧ content.isTextual = false := by
  unfold ingest_file at h
  split at h
  · simp at h
  · split at h
    · simp at h
    · split at h
      · simp at h
      · split at h
        · split at h <;> simp at h
        · simp at h
          refine ⟨?_, by simp_all⟩
          rw [← h]

/-- C5: `ingest_file` on a nonexistent path fails with
`FileNotFoundError` before any state is written: the durable state is
returned untouched, so no raw copy, no processed record and no catalog
entry observable via `list_ingested_files` is created. -/
theorem C5_nonexistent_path_no_state (st : IngestState) (file_path file_name ext : String)
    (declared_type : Option String) (uuid now : String) (size : Nat)
    (content : Content) (embedOk : Bool) :
    ingest_file st false file_path file_name ext declared_type uuid now size content embedOk
      = (st, Except.error (IngestError.fileNotFoundError file_path))
    ∧ list_ingested_files
        (ingest_file st false file_path file_name ext declared_type uuid now size content embedOk).1
      = list_ingested_files st := by
  constructor
  · simp [ingest_file]
  · simp [ingest_file]

/-- C3: for a file whose processed content is a string or a list of
strings, the vectorization branch ends in an uncaught exception — the
`EmbeddingError` when embedding fails, otherwise the `TypeError` from
calling `save_vector_store` with only the directory argument — so
`ingest_file` never returns for such files; and no returned
file-ingestion metadata ever contains a vector location. -/
theorem C3_textual_ingest_never_returns (st : IngestState) (fp fn ext ft uuid now : String)
    (size : Nat) (content : Content) (embedOk : Bool)
    (htext : content.isTextual = true) (hmem : ft ∈ SUPPORTED_FILE_TYPES) :
    (ingest_file st true fp fn ext (some ft) uuid now size content embedOk).2
      = Except.error (if embedOk = false then IngestError.embeddingError
          else IngestError.typeErrorMissingDirectory)
    ∧ ∀ (st2 : IngestState) (ex2 : Bool) (fp2 fn2 ext2 : String) (dt2 : Option String)
        (uuid2 now2 : String) (size2 : Nat) (content2 : Content) (embedOk2 : Bool)
        (md : FileMeta),
        (ingest_file st2 ex2 fp2 fn2 ext2 dt2 uuid2 now2 size2 content2 embedOk2).2
            = Except.ok md
        → md.vector_dir = none := by
  constructor
  · unfold ingest_file
    simp only [resolveFileType, hmem, htext]
    simp [hmem]
    split <;> simp
  · intro st2 ex2 fp2 fn2 ext2 dt2 uuid2 now2 size2 content2 embedOk2 md h
    exact (ingest_file_ok_imp st2 ex2 fp2 fn2 ext2 dt2 uuid2 now2 size2 content2 embedOk2 md h).1

/-- Witness for C3 on a concrete text file. -/
theorem C3_textual_ingest_never_returns_witness :
    (Content.text "informe anual").isTextual = true
    ∧ "txt" ∈ SUPPORTED_FILE_TYPES
    ∧ ((ingest_file emptyIngestState true "/docs/informe.txt" "informe.txt" "txt" (some "txt")
          "id3" "2024-01-02T00:00:00" 13 (Content.text "informe anual") true).2
        = Except.error (if (true : Bool) = false then IngestError.embeddingError
            else IngestError.typeErrorMissingDirectory)
      ∧ ∀ (st2 : IngestState) (ex2 : Bool) (fp2 fn2 ext2 : String) (dt2 : Option String)
          (uuid2 now2 : String) (size2 : Nat) (content2 : Content) (embedOk2 : Bool)
          (md : FileMeta),
          (ingest_file st2 ex2 fp2 fn2 ext2 dt2 uuid2 now2 size2 content2 embedOk2).2
              = Except.ok md
          → md.vector_dir = none) :=
  ⟨rfl, by decide,
    C3_textual_ingest_never_returns emptyIngestState "/docs/informe.txt" "informe.txt" "txt"
      "txt" "id3" "2024-01-02T00:00:00" 13 (Content.text "informe anual") true rfl (by decide)⟩

/-- C2 fails as stated: ingesting a concrete text file while the external
embedding model fails makes `ingest_file` raise (the `EmbeddingError`
propagates) instead of returning normally. -/
theorem C2_counterexample :
    (ingest_file emptyIngestState true "/docs/informe.txt" "informe.txt" "txt" (some "txt")
        "id9" "2024-01-02T00:00:00" 7 (Content.text "informe") false).2
      = Except.error IngestError.embeddingError := by
  rfl

/-- C2 (amended): when embedding fails during file ingestion the failure
is fatal for the call — `ingest_file` raises `EmbeddingError` — but the
catalog entry was already persisted before the vectorization step, so a
processed record for the file, with the vector location absent, is
retrievable via `list_ingested_files`. -/
theorem C2_embed_failure_fatal_but_cataloged (st : IngestState)
    (fp fn ext ft uuid now : String) (size : Nat) (content : Content)
    (htext : content.isTextual = true) (hmem : ft ∈ SUPPORTED_FILE_TYPES) :
    (ingest_file st true fp fn ext (some ft) uuid now size content false).2
      = Except.error IngestError.embeddingError
    ∧ ∃ md : FileMeta, md.file_id = uuid ∧ md.vector_dir = none
        ∧ CatalogMeta.file md ∈ list_ingested_files
            (ingest_file st true fp fn ext (some ft) uuid now size content false).1 := by
  constructor
  · unfold ingest_file
    simp [resolveFileType, hmem, htext]
  · refine ⟨⟨uuid, fn, fp, RAW_DATA_DIR ++ "/" ++ uuid ++ "_" ++ fn,
        PROCESSED_DATA_DIR ++ "/" ++ uuid ++ ".json", ft, now, size, none⟩, rfl, rfl, ?_⟩
    unfold ingest_file
    simp [resolveFileType, hmem, htext, list_ingested_files]

/-- Witness for C2 (amended) on a concrete text file. -/
theorem C2_embed_failure_witness :
    (Content.text "informe").isTextual = true
    ∧ "txt" ∈ SUPPORTED_FILE_TYPES
    ∧ ((ingest_file emptyIngestState true "/docs/i.txt" "i.txt" "txt" (some "txt")
          "id5" "2024-01-02T00:00:00" 7 (Content.text "informe") false).2
        = Except.error IngestError.embeddingError
      ∧ ∃ md : FileMeta, md.file_id = "id5" ∧ md.vector_dir = none
          ∧ CatalogMeta.file md ∈ list_ingested_files
              (ingest_file emptyIngestState true "/docs/i.txt" "i.txt" "txt" (some "txt")
                "id5" "2024-01-02T00:00:00" 7 (Content.text "informe") false).1) :=
  ⟨rfl, by decide,
    C2_embed_failure_fatal_but_cataloged emptyIngestState "/docs/i.txt" "i.txt" "txt" "txt"
      "id5" "2024-01-02T00:00:00" 7 (Content.text "informe") rfl (by decide)⟩

/-- C4 fails as stated: `ingest_text` on "hola mundo" with embedding
succeeding returns metadata whose `vector_dir` is populated, yet the
persisted record that `list()` reads — written before line 157 adds the
key — carries no vector location, breaking the claimed iff for the
persisted side. -/
theorem C4_counterexample :
    (ingest_text emptyIngestState "hola mundo" "notas" "id4" "2024-01-03T00:00:00"
        "20240103_000000" true).2
      = Except.ok ⟨"id4", "notas", RAW_DATA_DIR ++ "/" ++ "notas_20240103_000000.txt",
          PROCESSED_DATA_DIR ++ "/" ++ "id4.json", "text", "2024-01-03T00:00:00",
          "hola mundo".utf8ByteSize, some (VECTORS_DIR ++ "/" ++ "id4")⟩
    ∧ list_ingested_files
        (ingest_text emptyIngestState "hola mundo" "notas" "id4" "2024-01-03T00:00:00"
          "20240103_000000" true).1
      = [CatalogMeta.text ⟨"id4", "notas", RAW_DATA_DIR ++ "/" ++ "notas_20240103_000000.txt",
          PROCESSED_DATA_DIR ++ "/" ++ "id4.json", "text", "2024-01-03T00:00:00",
          "hola mundo".utf8ByteSize, none⟩] := by
  constructor
  · rfl
  · rfl

/-- C4 (amended): the returned `ingest_text` metadata carries
`vector_dir` iff embedding succeeded; but the persisted processed record
that `list()` reads never carries it (the record is written before the
key is added to the in-memory dict), and `ingest_file` never returns
metadata carrying it (its vectorization branch always raises). -/
theorem C4_vector_location_iff (st : IngestState) (text source_name uuid now ts : String)
    (embedOk : Bool) :
    ((∃ md : TextMeta, (ingest_text st text source_name uuid now ts embedOk).2 = Except.ok md
        ∧ md.vector_dir.isSome = true) ↔ embedOk = true)
    ∧ (∃ mdp : TextMeta, (ingest_text st text source_name uuid now ts embedOk).1.processed
          = st.processed ++ [⟨CatalogMeta.text mdp, Content.text text⟩]
        ∧ mdp.vector_dir = none)
    ∧ ∀ (st2 : IngestState) (ex2 : Bool) (fp2 fn2 ext2 : String) (dt2 : Option String)
        (uuid2 now2 : String) (size2 : Nat) (content2 : Content) (embedOk2 : Bool)
        (md : FileMeta),
        (ingest_file st2 ex2 fp2 fn2 ext2 dt2 uuid2 now2 size2 content2 embedOk2).2
            = Except.ok md
        → md.vector_dir = none := by
  refine ⟨?_, ?_, ?_⟩
  · constructor
    · rintro ⟨md, hmd, _⟩
      cases embedOk with
      | true => rfl
      | false => simp [ingest_text] at hmd
    · intro h
      subst h
      exact ⟨⟨uuid, source_name, RAW_DATA_DIR ++ "/" ++ (source_name ++ "_" ++ ts ++ ".txt"),
        PROCESSED_DATA_DIR ++ "/" ++ uuid ++ ".json", "text", now, text.utf8ByteSize,
        some (VECTORS_DIR ++ "/" ++ uuid)⟩, rfl, rfl⟩
  · cases embedOk with
    | false => exact ⟨_, rfl, rfl⟩
    | true => exact ⟨_, rfl, rfl⟩
  · intro st2 ex2 fp2 fn2 ext2 dt2 uuid2 now2 size2 content2 embedOk2 md h
    exact (ingest_file_ok_imp st2 ex2 fp2 fn2 ext2 dt2 uuid2 now2 size2 content2 embedOk2 md h).1

/-- C6: when `k` is at least the number of stored segments, similarity
search does not fail and returns exactly all segments (the external index
clamps `k` to the number present); the same holds through
`search_in_vectors` on a persisted index. -/
theorem C6_search_k_clamped (query : String) (ranked : List (Document × Int)) (k : Int)
    (hk : (ranked.length : Int) ≤ k) :
    VectorHandler.similarity_search query ranked k
      = ranked.map (fun p => (p.1.page_content, p.2))
    ∧ search_in_vectors query (some ranked) k
      = Except.ok (ranked.map (fun p => (p.1.page_content, p.2))) := by
  have h1 : VectorHandler.similarity_search query ranked k
      = ranked.map (fun p => (p.1.page_content, p.2)) := by
    unfold VectorHandler.similarity_search faissSearchWithScore
    have h2 : min k.toNat ranked.length = ranked.length := by omega
    rw [h2, List.take_length]
  exact ⟨h1, by simp [search_in_vectors, load_vector_store, Except.map, h1]⟩

/-- Witness for C6 with two stored segments and `k = 5`. -/
theorem C6_search_k_clamped_witness :
    (([(doc1, 0), (doc2, 1)] : List (Document × Int)).length : Int) ≤ 5
    ∧ (VectorHandler.similarity_search "apple" [(doc1, 0), (doc2, 1)] 5
        = ([(doc1, 0), (doc2, 1)] : List (Document × Int)).map (fun p => (p.1.page_content, p.2))
      ∧ search_in_vectors "apple" (some [(doc1, 0), (doc2, 1)]) 5
        = Except.ok (([(doc1, 0), (doc2, 1)] : List (Document × Int)).map
            (fun p => (p.1.page_content, p.2)))) :=
  ⟨by decide, C6_search_k_clamped "apple" [(doc1, 0), (doc2, 1)] 5 (by decide)⟩

/-- C7 fails as stated: `k = 0` is passed through without any validation
and the search returns an (empty) result sequence — no
`ConfigurationError` is raised; no such check exists anywhere on the
search path. -/
theorem C7_counterexample :
    VectorHandler.similarity_search "apple" [(doc1, 0), (doc2, 1)] 0 = []
    ∧ search_in_vectors "apple" (some [(doc1, 0), (doc2, 1)]) 0 = Except.ok [] := by
  constructor
  · rfl
  · rfl

/-- C7 (amended): the search path performs no validation of `k`: for
every `k ≤ 0` the call raises no configuration error and returns the
empty result sequence (the external index yields no results for a
non-positive `k`). -/
theorem C7_nonpositive_k_returns_empty (query : String) (ranked : List (Document × Int))
    (k : Int) (hk : k ≤ 0) :
    VectorHandler.similarity_search query ranked k = []
    ∧ search_in_vectors query (some ranked) k = Except.ok [] := by
  have h1 : VectorHandler.similarity_search query ranked k = [] := by
    unfold VectorHandler.similarity_search faissSearchWithScore
    have h2 : k.toNat = 0 := by omega
    simp [h2]
  exact ⟨h1, by simp [search_in_vectors, load_vector_store, Except.map, h1]⟩

/-- Witness for C7 (amended) at `k = -2`. -/
theorem C7_nonpositive_k_witness :
    (-2 : Int) ≤ 0
    ∧ (VectorHandler.similarity_search "apple" [(doc1, 0)] (-2) = []
      ∧ search_in_vectors "apple" (some [(doc1, 0)]) (-2) = Except.ok []) :=
  ⟨by decide, C7_nonpositive_k_returns_empty "apple" [(doc1, 0)] (-2) (by decide)⟩

/-- C8: a text shorter than the configured `chunk_size` yields exactly
one chunk, equal to the whole input text. -/
theorem C8_short_text_single_chunk (text : String)
    (h : text.length < VectorHandler.chunk_size) :
    Chunker.split VectorHandler.chunk_size VectorHandler.chunk_overlap text = [text] := by
  unfold Chunker.split
  cases hf : text.length with
  | zero => rfl
  | succ n => simp [chunkLoop, Nat.le_of_lt h]

/-- Witness for C8 on a ten-character text. -/
theorem C8_short_text_single_chunk_witness :
    "hola mundo".length < VectorHandler.chunk_size
    ∧ Chunker.split VectorHandler.chunk_size VectorHandler.chunk_overlap "hola mundo"
      = ["hola mundo"] :=
  ⟨by decide, C8_short_text_single_chunk "hola mundo" (by decide)⟩
